import Mathlib

/-!
Shallow embedding of the `ornldaac/uavsar_tutorials` notebook
(`src/deltax_uavsar_earthdata_cloud.ipynb`).

The notebook has four stages: CMR catalog search (`search_cmr`), temporary
S3 credential retrieval (`get_s3credentials`), authenticated object access
(`s3fs` for the annotation file, `np.memmap` of a local path for the raster),
and raster decode/derivation (`reshape`, `np.abs`, `np.angle`).

Python's untyped JSON traversal is modelled with an inductive `Json` type;
a raised exception (KeyError, IndexError, AttributeError, TypeError,
requests.HTTPError) is modelled as `Option.none` / `Except.error`.
Machine floats are modelled by their real-number denotations: an IEEE-754
binary32 bit pattern decodes to the exact real it denotes, and the
non-finite patterns (exponent field 255: infinities and NaNs), which have
no real denotation, decode to `none`.
-/

namespace UAVSAR

/-- Untyped JSON values, as traversed by the notebook's subscript accesses. -/
inductive Json where
  | null : Json
  | str : String → Json
  | num : Int → Json
  | bool : Bool → Json
  | arr : List Json → Json
  | obj : List (String × Json) → Json

/-- Lookup in a JSON object modelled as an association list (first match,
as a Python dict has unique keys).  A missing key is Python's `KeyError`. -/
def lookupKey : List (String × Json) → String → Option Json
  | [], _ => none
  | (k', v) :: rest, k => if k' = k then some v else lookupKey rest k

/-- Python's `j[key]`: `KeyError` / `TypeError` (subscripting a non-dict with
a string key) become `none`. -/
def Json.getKey : Json → String → Option Json
  | .obj kvs, k => lookupKey kvs k
  | _, _ => none

/-- Python's `j[i]` on a list: `IndexError` on an out-of-range index and
`TypeError` on a non-list become `none`. -/
def Json.index : Json → Nat → Option Json
  | .arr xs, i => xs.get? i
  | _, _ => none

/-- A string-typed JSON value; any other shape is `none` (Python would raise
`AttributeError` when a string method is then called on it). -/
def Json.asStr : Json → Option String
  | .str s => some s
  | _ => none

/-- A list-typed JSON value; any other shape is `none` (Python would raise
`TypeError` when it is then iterated). -/
def Json.asArr : Json → Option (List Json)
  | .arr xs => some xs
  | _ => none

/-- An HTTP response: its status code and its parsed JSON body
(`r.json()`). -/
structure HttpResponse where
  status : Nat
  body : Json

/-- The statuses on which `requests`' `raise_for_status` raises `HTTPError`:
4xx and 5xx. -/
def isErrorStatus (s : Nat) : Bool := 400 ≤ s && s < 600

/-- The DOI → concept-id extraction of `search_cmr`:
`requests.get(doisearch).json()['feed']['entry'][0]['id']`.  Note the
notebook performs NO status check on this response; it goes straight to the
body.  `none` models the uncaught KeyError/IndexError on a malformed body or
an empty entry list. -/
def conceptIdOf (body : Json) : Option Json := do
  let feed ← body.getKey "feed"
  let entry ← feed.getKey "entry"
  let e0 ← entry.index 0
  e0.getKey "id"

/-- The granule-page extraction `granules = r.json()['feed']['entry']`. -/
def entriesOf (body : Json) : Option (List Json) := do
  let feed ← body.getKey "feed"
  let entry ← feed.getKey "entry"
  entry.asArr

/-- Core of Python's `s.startswith(pre)`: does the first char list start
with the second? -/
def charsStart : List Char → List Char → Bool
  | _, [] => true
  | [], _ :: _ => false
  | c :: cs, p :: ps => if c = p then charsStart cs ps else false

/-- Python's `s.startswith(pre)` on the strings' characters. -/
def pyStartsWith (s pre : String) : Bool := charsStart s.data pre.data

/-- The inner loop body `for links in g['links']: if
links['href'].startswith('s3://'): s3_arr.append(links['href'])`, for one
granule's link list. -/
def s3LinksOfLinks : List Json → Option (List String)
  | [] => some []
  | l :: ls => do
      let hrefJson ← l.getKey "href"
      let href ← hrefJson.asStr
      let rest ← s3LinksOfLinks ls
      pure (if pyStartsWith href "s3://" then href :: rest else rest)

/-- The links collected from one granule record `g`. -/
def s3LinksOfGranule (g : Json) : Option (List String) := do
  let links ← g.getKey "links"
  let larr ← links.asArr
  s3LinksOfLinks larr

/-- The links collected from the granules of one page, in order. -/
def s3LinksOfGranules : List Json → Option (List String)
  | [] => some []
  | g :: gs => do
      let here ← s3LinksOfGranule g
      let rest ← s3LinksOfGranules gs
      pure (here ++ rest)

/-- The ways the notebook's search can raise: an `HTTPError` from
`raise_for_status`, or an uncaught KeyError / IndexError / TypeError /
AttributeError from untyped JSON traversal. -/
inductive CmrError where
  | httpError (status : Nat)
  | keyError
deriving DecidableEq

/-- The form parameters posted to the granule endpoint on each iteration. -/
structure CmrParams where
  collectionConceptId : Json
  pageSize : Nat
  pageNum : Nat

/-- The hardcoded CMR page-size limit used by the notebook. -/
def pageSizeLimit : Nat := 2000

/-- The `while True` pagination loop of `search_cmr`, step-indexed by `fuel`
(the loop itself has no bound: `none` means the loop has not exited within
`fuel` iterations).  Each iteration issues one page request; on exit the
second component is the page number of the last request issued, i.e. the
total number of page requests. -/
def searchLoop (req : Nat → HttpResponse) :
    Nat → Nat → List String → Option (Except CmrError (List String × Nat))
  | 0, _, _ => none
  | fuel + 1, pageNum, acc =>
      let r := req pageNum
      if isErrorStatus r.status then some (Except.error (CmrError.httpError r.status))
      else
        match entriesOf r.body with
        | none => some (Except.error CmrError.keyError)
        | some [] => some (Except.ok (acc, pageNum))
        | some (g :: gs) =>
            match s3LinksOfGranules (g :: gs) with
            | none => some (Except.error CmrError.keyError)
            | some ls => searchLoop req fuel (pageNum + 1) (acc ++ ls)

/-- `search_cmr(doi)`: resolve the DOI via one lookup request (no status
check), then page through the granule endpoint from page 1 with the fixed
page size.  `doiResp` is the response to the collections.json lookup and
`granuleReq` the granule endpoint, as a function of the posted parameters. -/
def searchCmr (doiResp : HttpResponse) (granuleReq : CmrParams → HttpResponse)
    (fuel : Nat) : Option (Except CmrError (List String × Nat)) :=
  match conceptIdOf doiResp.body with
  | none => some (Except.error CmrError.keyError)
  | some cid =>
      searchLoop (fun p => granuleReq ⟨cid, pageSizeLimit, p⟩) fuel 1 []

/-- `get_s3credentials(daac)`: one GET, `raise_for_status`, then the parsed
JSON body is returned unmodified (`return r.json()`). -/
def getS3Credentials (resp : HttpResponse) : Except Nat Json :=
  if isErrorStatus resp.status then Except.error resp.status else Except.ok resp.body

/-- A link record with the given href, as the granule endpoint returns it. -/
def mkLink (href : String) : Json := Json.obj [("href", Json.str href)]

/-- A granule record holding the given link hrefs. -/
def mkGranule (hrefs : List String) : Json :=
  Json.obj [("links", Json.arr (hrefs.map mkLink))]

/-- A granule-page body `{"feed": {"entry": [...]}}`. -/
def mkPageBody (granules : List Json) : Json :=
  Json.obj [("feed", Json.obj [("entry", Json.arr granules)])]

/-- A well-formed, successful granule-page endpoint built from a function
giving each page's granules as lists of link hrefs. -/
def mkEndpoint (pages : Nat → List (List String)) : Nat → HttpResponse :=
  fun p => ⟨200, mkPageBody ((pages p).map mkGranule)⟩

/-- A collection entry with the given concept identifier. -/
def mkCollectionEntry (cid : Json) : Json := Json.obj [("id", cid)]

/-- A collections.json lookup body whose feed holds the given entries. -/
def mkCollectionsBody (ids : List Json) : Json :=
  Json.obj [("feed", Json.obj [("entry", Json.arr (ids.map mkCollectionEntry))])]

/-- The links the loop collects from one page given as lists of hrefs:
per granule, the hrefs starting with the object-store scheme, concatenated. -/
def sLinksOfPage : List (List String) → List String
  | [] => []
  | hs :: rest => hs.filter (fun h => pyStartsWith h "s3://") ++ sLinksOfPage rest

/-- The links collected from `n` consecutive pages starting at page `p`. -/
def segLinks (pages : Nat → List (List String)) (p : Nat) : Nat → List String
  | 0 => []
  | n + 1 => sLinksOfPage (pages p) ++ segLinks pages (p + 1) n

/-! ### Raster decode

`np.memmap(path, dtype=np.complex64)` interprets the file's bytes as
consecutive complex64 samples: per sample a 4-byte real then a 4-byte
imaginary, each an IEEE-754 binary32 in little-endian byte order.  A file
length that is not a multiple of 8 raises.  We model a byte buffer as a
`List Nat` of byte values and decode each finite bit pattern to the exact
real it denotes; non-finite patterns (exponent field 255) have no real
denotation and decode to `none`. -/

/-- The 32-bit word formed by four bytes in little-endian order. -/
def word32 (b0 b1 b2 b3 : Nat) : Nat :=
  b0 + 256 * b1 + 256 ^ 2 * b2 + 256 ^ 3 * b3

/-- The number denoted by a 32-bit IEEE-754 binary32 pattern: sign bit,
8-bit biased exponent, 23-bit fraction.  Exponent 0 is subnormal (value
`±m·2^(-149)`), exponents 1..254 are normal (value `±(2^23+m)·2^(e-150)`),
and exponent 255 (infinities, NaNs) denotes no finite number.  Every finite
binary32 value is an exact rational. -/
def decodeFloat32 (w : Nat) : Option ℚ :=
  let s : ℕ := w / 2 ^ 31 % 2
  let e : ℕ := w / 2 ^ 23 % 256
  let m : ℕ := w % 2 ^ 23
  let sign : ℚ := if s = 1 then -1 else 1
  if e = 255 then none
  else if e = 0 then some (sign * (m : ℚ) * (2 : ℚ) ^ (-149 : ℤ))
  else some (sign * ((2 ^ 23 + m : ℕ) : ℚ) * (2 : ℚ) ^ ((e : ℤ) - 150))

/-- Decode a byte buffer as consecutive complex64 samples (4-byte real part
then 4-byte imaginary part, little-endian), each sample an exact
(real, imaginary) pair.  `none` when the length is not a multiple of 8 (as
`np.memmap` raises) or a pattern is non-finite. -/
def decodeComplex64 : List Nat → Option (List (ℚ × ℚ))
  | [] => some []
  | b0 :: b1 :: b2 :: b3 :: b4 :: b5 :: b6 :: b7 :: rest => do
      let re ← decodeFloat32 (word32 b0 b1 b2 b3)
      let im ← decodeFloat32 (word32 b4 b5 b6 b7)
      let tl ← decodeComplex64 rest
      pure ((re, im) :: tl)
  | _ => none

/-- The complex number a decoded sample denotes. -/
noncomputable def toComplex (p : ℚ × ℚ) : ℂ := Complex.mk (p.1 : ℝ) (p.2 : ℝ)

/-- Take exactly `n` elements from the front of a list, returning them and
the remainder; `none` when the list is shorter than `n`. -/
def takeExact {α : Type} : Nat → List α → Option (List α × List α)
  | 0, xs => some ([], xs)
  | _ + 1, [] => none
  | n + 1, x :: xs =>
      match takeExact n xs with
      | none => none
      | some (row, rest) => some (x :: row, rest)

/-- NumPy's `a.reshape(rows, cols)` on a 1-D array:
builds the row-major `rows × cols` grid, and raises (`none`) whenever the
element count does not match — it never truncates or pads. -/
def reshape {α : Type} : Nat → Nat → List α → Option (List (List α))
  | 0, _, xs => if xs.isEmpty then some [] else none
  | r + 1, cols, xs =>
      match takeExact cols xs with
      | none => none
      | some (row, rest) =>
          match reshape r cols rest with
          | none => none
          | some grid => some (row :: grid)

/-- `np.abs` on a complex sample: the Euclidean norm of the real and
imaginary parts. -/
noncomputable def npAbs (z : ℂ) : ℝ := Real.sqrt (z.re ^ 2 + z.im ^ 2)

/-- `np.angle` on a complex sample: the angle of `z` from the positive real
axis, i.e. `atan2(z.imag, z.real)`, whose exact real-number semantics is the
complex argument (range `(-π, π]`, with `atan2(0, 0) = 0 = arg 0`). -/
noncomputable def npAngle (z : ℂ) : ℝ := Complex.arg z

/-! ### Object access trace

Cell 13 reads the annotation file through the credential-scoped `s3fs`
session (`fs_s3.open(ann_file, mode='r')`).  Cell 15 memory-maps the raster
from a LOCAL path, the last `/`-separated segment of the granule URI
(`np.memmap(seg2.split('/')[-1], dtype=np.complex64)`); the
`fs_s3.download(...)` calls that would fetch it are commented out. -/

/-- One object access the notebook performs: an open through the
credential-scoped remote filesystem session, or a memory-map of a local
filesystem path. -/
inductive Access where
  | fsS3Open (path : String)
  | localMemmap (path : String)
deriving DecidableEq

/-- Python's `s.split('/')` on the string's characters: split at every
separator, keeping empty segments (so the result is never empty). -/
def splitChars (c : Char) : List Char → List (List Char)
  | [] => [[]]
  | x :: xs =>
      let r := splitChars c xs
      if x = c then [] :: r
      else
        match r with
        | [] => [[x]]
        | h :: t => (x :: h) :: t

/-- Python's `s.split('/')`. -/
def pySplitSlash (s : String) : List String :=
  (splitChars (Char.ofNat 47) s.data).map String.mk

/-- Python's `s.split('/')[-1]`: the last `/`-separated segment. -/
def lastSegment (s : String) : String := (pySplitSlash s).getLastD ""

/-- The read that produces the raster payload in cell 15: a memory-map of
the local path `seg2.split('/')[-1]`. -/
def rasterAccess (seg2 : String) : Access := Access.localMemmap (lastSegment seg2)

/-- The object accesses the notebook's executed code performs, in order: the
annotation read through `fs_s3`, then the local memory-map of the raster
(the `fs_s3.download` lines are comments and perform nothing). -/
def notebookAccesses (annFile seg2 : String) : List Access :=
  [Access.fsS3Open annFile, rasterAccess seg2]

/-! ### Helper lemmas -/

/-- The magnitude `np.abs` computes is the complex absolute value. -/
lemma npAbs_eq_abs (z : ℂ) : npAbs z = Complex.abs z := by
  rw [npAbs, Complex.abs_apply, Complex.normSq_apply]
  congr 1
  ring

/-- A successful `takeExact` consumed exactly `n` elements. -/
lemma takeExact_length {α : Type} :
    ∀ (n : Nat) (xs row rest : List α),
      takeExact n xs = some (row, rest) → xs.length = n + rest.length := by
  intro n
  induction n with
  | zero =>
      intro xs row rest h
      simp only [takeExact, Option.some.injEq, Prod.mk.injEq] at h
      rw [← h.2]
      simp
  | succ n ih =>
      intro xs row rest h
      cases xs with
      | nil => simp [takeExact] at h
      | cons x xs =>
          cases hx : takeExact n xs with
          | none => simp [takeExact, hx] at h
          | some pr =>
              obtain ⟨a, b⟩ := pr
              simp only [takeExact, hx, Option.some.injEq, Prod.mk.injEq] at h
              have := ih xs a b hx
              rw [← h.2]
              simp only [List.length_cons]
              omega

/-- A successful reshape means the element count was exactly `rows * cols`. -/
lemma reshape_length {α : Type} :
    ∀ (r cols : Nat) (xs : List α) (g : List (List α)),
      reshape r cols xs = some g → xs.length = r * cols := by
  intro r
  induction r with
  | zero =>
      intro cols xs g h
      simp only [reshape] at h
      split at h
      · next he => rw [List.isEmpty_iff] at he; rw [he]; simp
      · exact absurd h (by simp)
  | succ r ih =>
      intro cols xs g h
      cases ht : takeExact cols xs with
      | none => simp [reshape, ht] at h
      | some pr =>
          obtain ⟨row, rest⟩ := pr
          cases hg : reshape r cols rest with
          | none => simp [reshape, ht, hg] at h
          | some g2 =>
              have h1 := takeExact_length cols xs row rest ht
              have h2 := ih cols rest g2 hg
              rw [Nat.succ_mul]
              omega

end UAVSAR

namespace UAVSAR

/-! ### Claims about the raster decode and derived grids -/

/-- C1: for every valid (rows, cols, buffer) with `len(buffer) = rows*cols*8`,
every decoded complex sample `z` satisfies the round-trip equation
`z = |z| * exp(i * angle(z))` — exactly, in the real-number semantics of the
derived magnitude and phase grids. -/
theorem C1_roundtrip (rows cols : Nat) (buffer : List Nat)
    (samples : List (ℚ × ℚ)) (hlen : buffer.length = rows * cols * 8)
    (hdec : decodeComplex64 buffer = some samples) :
    ∀ p ∈ samples,
      (npAbs (toComplex p) : ℂ) * Complex.exp ((npAngle (toComplex p) : ℂ) * Complex.I) =
        toComplex p := by
  intro p _
  rw [npAbs_eq_abs]
  simp only [npAngle]
  exact Complex.abs_mul_exp_arg_mul_I (toComplex p)

/-- Witness for C1 at the concrete 8-byte zero buffer with rows = cols = 1. -/
theorem C1_roundtrip_witness :
    List.length [0, 0, 0, 0, 0, 0, 0, 0] = 1 * 1 * 8 ∧
    decodeComplex64 [0, 0, 0, 0, 0, 0, 0, 0] = some [(0, 0)] ∧
    ∀ p ∈ [((0 : ℚ), (0 : ℚ))],
      (npAbs (toComplex p) : ℂ) * Complex.exp ((npAngle (toComplex p) : ℂ) * Complex.I) =
        toComplex p :=
  ⟨rfl, by norm_num [decodeComplex64, decodeFloat32, word32],
    C1_roundtrip 1 1 [0, 0, 0, 0, 0, 0, 0, 0] [(0, 0)] rfl
      (by norm_num [decodeComplex64, decodeFloat32, word32])⟩

/-- C2: every sample of the decoded raster has its derived phase in the
half-open interval `(-π, π]` and its derived magnitude `≥ 0`. -/
theorem C2_phase_magnitude_range (rows cols : Nat) (buffer : List Nat)
    (samples : List (ℚ × ℚ)) (grid : List (List (ℚ × ℚ)))
    (hdec : decodeComplex64 buffer = some samples)
    (hgrid : reshape rows cols samples = some grid) :
    ∀ row ∈ grid, ∀ p ∈ row,
      0 ≤ npAbs (toComplex p) ∧
      -Real.pi < npAngle (toComplex p) ∧ npAngle (toComplex p) ≤ Real.pi := by
  intro row _ p _
  exact ⟨Real.sqrt_nonneg _, Complex.neg_pi_lt_arg _, Complex.arg_le_pi _⟩

/-- Witness for C2 at the concrete 8-byte zero buffer reshaped to 1 × 1. -/
theorem C2_phase_magnitude_range_witness :
    decodeComplex64 [0, 0, 0, 0, 0, 0, 0, 0] = some [(0, 0)] ∧
    reshape 1 1 [((0 : ℚ), (0 : ℚ))] = some [[(0, 0)]] ∧
    ∀ row ∈ [[((0 : ℚ), (0 : ℚ))]], ∀ p ∈ row,
      0 ≤ npAbs (toComplex p) ∧
      -Real.pi < npAngle (toComplex p) ∧ npAngle (toComplex p) ≤ Real.pi :=
  ⟨by norm_num [decodeComplex64, decodeFloat32, word32], rfl,
    C2_phase_magnitude_range 1 1 [0, 0, 0, 0, 0, 0, 0, 0] [(0, 0)] [[(0, 0)]]
      (by norm_num [decodeComplex64, decodeFloat32, word32]) rfl⟩

/-- C6: for every (rows, cols) and every decoded buffer whose number of
complex samples differs from `rows * cols`, the reshape to (rows, cols)
fails with a detectable error (`none`) rather than silently truncating or
padding. -/
theorem C6_reshape_mismatch (rows cols : Nat) (buffer : List Nat)
    (samples : List (ℚ × ℚ)) (hdec : decodeComplex64 buffer = some samples)
    (hne : samples.length ≠ rows * cols) :
    reshape rows cols samples = none := by
  cases h : reshape rows cols samples with
  | none => rfl
  | some g => exact absurd (reshape_length rows cols samples g h) hne

/-- Witness for C6: one decoded sample cannot be reshaped to 2 × 3. -/
theorem C6_reshape_mismatch_witness :
    decodeComplex64 [0, 0, 0, 0, 0, 0, 0, 0] = some [(0, 0)] ∧
    List.length [((0 : ℚ), (0 : ℚ))] ≠ 2 * 3 ∧
    reshape 2 3 [((0 : ℚ), (0 : ℚ))] = none :=
  ⟨by norm_num [decodeComplex64, decodeFloat32, word32], by simp,
    C6_reshape_mismatch 2 3 [0, 0, 0, 0, 0, 0, 0, 0] [(0, 0)]
      (by norm_num [decodeComplex64, decodeFloat32, word32]) (by simp)⟩

/-! ### Helper lemmas about the search loop on well-formed pages -/

/-- The per-granule link loop on a well-formed link list collects exactly
the hrefs with the object-store scheme, in order. -/
lemma s3LinksOfLinks_mkLink (hrefs : List String) :
    s3LinksOfLinks (hrefs.map mkLink) =
      some (hrefs.filter (fun h => pyStartsWith h "s3://")) := by
  induction hrefs with
  | nil => rfl
  | cons h t ih =>
      simp only [List.map_cons, s3LinksOfLinks, mkLink, Json.getKey, lookupKey,
        if_pos, Json.asStr, Option.bind_some, ih, List.filter_cons]
      by_cases hs : pyStartsWith h "s3://" = true
      · simp [hs]
      · simp [hs]

/-- The link collection on a well-formed granule record. -/
lemma s3LinksOfGranule_mkGranule (hrefs : List String) :
    s3LinksOfGranule (mkGranule hrefs) =
      some (hrefs.filter (fun h => pyStartsWith h "s3://")) := by
  simp only [s3LinksOfGranule, mkGranule, Json.getKey, lookupKey, if_pos,
    Json.asArr, Option.bind_some]
  exact s3LinksOfLinks_mkLink hrefs

/-- The link collection over a well-formed page of granules. -/
lemma s3LinksOfGranules_mkGranule (pg : List (List String)) :
    s3LinksOfGranules (pg.map mkGranule) = some (sLinksOfPage pg) := by
  induction pg with
  | nil => rfl
  | cons g t ih =>
      simp only [List.map_cons, s3LinksOfGranules, s3LinksOfGranule_mkGranule,
        Option.bind_some, ih, sLinksOfPage]
      rfl

/-- The entry extraction on a well-formed page body. -/
lemma entriesOf_mkPageBody (gs : List Json) :
    entriesOf (mkPageBody gs) = some gs := rfl

/-- One non-empty page: the loop issues the request, appends the page's
collected links and moves to the next page number. -/
lemma searchLoop_step (pages : Nat → List (List String)) (fuel p : Nat)
    (acc : List String) (h : pages p ≠ []) :
    searchLoop (mkEndpoint pages) (fuel + 1) p acc =
      searchLoop (mkEndpoint pages) fuel (p + 1) (acc ++ sLinksOfPage (pages p)) := by
  cases hp : pages p with
  | nil => exact absurd hp h
  | cons g t =>
      simp only [searchLoop, mkEndpoint, hp, isErrorStatus]
      norm_num
      have hs : s3LinksOfGranules (mkGranule g :: List.map mkGranule t) =
          some (sLinksOfPage (g :: t)) := s3LinksOfGranules_mkGranule (g :: t)
      show (match s3LinksOfGranules (mkGranule g :: List.map mkGranule t) with
          | none => some (Except.error CmrError.keyError)
          | some ls => searchLoop (mkEndpoint pages) fuel (p + 1) (acc ++ ls)) =
        searchLoop (mkEndpoint pages) fuel (p + 1) (acc ++ sLinksOfPage (g :: t))
      rw [hs]

/-- An empty page: the loop stops and returns the accumulated links together
with the page number of this last request. -/
lemma searchLoop_stop (pages : Nat → List (List String)) (fuel p : Nat)
    (acc : List String) (h : pages p = []) :
    searchLoop (mkEndpoint pages) (fuel + 1) p acc = some (Except.ok (acc, p)) := by
  simp only [searchLoop, mkEndpoint, h, isErrorStatus]
  norm_num
  rw [show entriesOf (mkPageBody []) = some [] from rfl]

end UAVSAR

namespace UAVSAR

/-! ### Claims about catalog search and credentials -/

/-- C4: for every granule record, the search retains exactly the link hrefs
that start with the object-store scheme `s3://` and discards all others; on
a granule with an `s3://`, an `https://` and an `ftp://` link, only the
`s3://` link is kept. -/
theorem C4_link_filter :
    (∀ hrefs : List String,
      s3LinksOfGranule (mkGranule hrefs) =
        some (hrefs.filter (fun h => pyStartsWith h "s3://"))) ∧
    s3LinksOfGranule
        (mkGranule ["s3://bucket/granule.slc", "https://mirror/granule.slc",
          "ftp://mirror/granule.slc"]) =
      some ["s3://bucket/granule.slc"] := by
  refine ⟨s3LinksOfGranule_mkGranule, ?_⟩
  rw [s3LinksOfGranule_mkGranule]
  decide

/-- C5: for every successful response of the credential endpoint,
`get_s3credentials` returns the parsed JSON body unmodified. -/
theorem C5_credentials (resp : HttpResponse)
    (h : isErrorStatus resp.status = false) :
    getS3Credentials resp = Except.ok resp.body := by
  simp [getS3Credentials, h]

/-- Witness for C5: a 200 response carrying the four credential fields is
returned as-is, each field exposed with its original value. -/
theorem C5_credentials_witness :
    isErrorStatus 200 = false ∧
    getS3Credentials
        ⟨200, Json.obj [("accessKeyId", Json.str "A"),
          ("secretAccessKey", Json.str "B"), ("sessionToken", Json.str "C"),
          ("expiration", Json.str "2024-01-01T00:00:00Z")]⟩ =
      Except.ok (Json.obj [("accessKeyId", Json.str "A"),
        ("secretAccessKey", Json.str "B"), ("sessionToken", Json.str "C"),
        ("expiration", Json.str "2024-01-01T00:00:00Z")]) ∧
    Json.getKey (Json.obj [("accessKeyId", Json.str "A"),
        ("secretAccessKey", Json.str "B"), ("sessionToken", Json.str "C"),
        ("expiration", Json.str "2024-01-01T00:00:00Z")]) "accessKeyId" =
      some (Json.str "A") ∧
    Json.getKey (Json.obj [("accessKeyId", Json.str "A"),
        ("secretAccessKey", Json.str "B"), ("sessionToken", Json.str "C"),
        ("expiration", Json.str "2024-01-01T00:00:00Z")]) "secretAccessKey" =
      some (Json.str "B") ∧
    Json.getKey (Json.obj [("accessKeyId", Json.str "A"),
        ("secretAccessKey", Json.str "B"), ("sessionToken", Json.str "C"),
        ("expiration", Json.str "2024-01-01T00:00:00Z")]) "sessionToken" =
      some (Json.str "C") ∧
    Json.getKey (Json.obj [("accessKeyId", Json.str "A"),
        ("secretAccessKey", Json.str "B"), ("sessionToken", Json.str "C"),
        ("expiration", Json.str "2024-01-01T00:00:00Z")]) "expiration" =
      some (Json.str "2024-01-01T00:00:00Z") :=
  ⟨rfl, C5_credentials ⟨200, _⟩ rfl, rfl, rfl, rfl, rfl⟩

/-- A run over `n` non-empty pages followed by an empty one: the loop stops
at the empty page, returning the accumulated links of the non-empty pages in
pagination order and the empty page's number (= the number of requests). -/
lemma searchLoop_general (pages : Nat → List (List String)) :
    ∀ (n p fuel : Nat) (acc : List String), n + 1 ≤ fuel →
      (∀ i, p ≤ i → i < p + n → pages i ≠ []) →
      pages (p + n) = [] →
      searchLoop (mkEndpoint pages) fuel p acc =
        some (Except.ok (acc ++ segLinks pages p n, p + n)) := by
  intro n
  induction n with
  | zero =>
      intro p fuel acc hf hnon hstop
      obtain ⟨f, rfl⟩ : ∃ f, fuel = f + 1 := ⟨fuel - 1, by omega⟩
      rw [searchLoop_stop pages f p acc (by simpa using hstop)]
      simp [segLinks]
  | succ n ih =>
      intro p fuel acc hf hnon hstop
      obtain ⟨f, rfl⟩ : ∃ f, fuel = f + 1 := ⟨fuel - 1, by omega⟩
      have hp : pages p ≠ [] := hnon p (le_refl p) (by omega)
      rw [searchLoop_step pages f p acc hp]
      have := ih (p + 1) f (acc ++ sLinksOfPage (pages p)) (by omega)
        (fun i h1 h2 => hnon i (by omega) (by omega))
        (by rw [show p + 1 + n = p + (n + 1) from by omega]; exact hstop)
      rw [this, show p + 1 + n = p + (n + 1) from by omega]
      simp [segLinks, List.append_assoc]

/-- C3: the search pages through the granule endpoint starting at page 1,
stops at the first page whose entry list is empty (page `N`, its `N`-th
request), and returns the links of the preceding pages concatenated in
pagination order. -/
theorem C3_pagination (pages : Nat → List (List String)) (cid : Json)
    (fuel N : Nat) (hN : 1 ≤ N)
    (hfirst : ∀ p, 1 ≤ p → p < N → pages p ≠ [])
    (hempty : pages N = []) (hf : N ≤ fuel) :
    searchCmr ⟨200, mkCollectionsBody [cid]⟩
        (fun prm => mkEndpoint pages prm.pageNum) fuel =
      some (Except.ok (segLinks pages 1 (N - 1), N)) := by
  have h0 : searchCmr ⟨200, mkCollectionsBody [cid]⟩
      (fun prm => mkEndpoint pages prm.pageNum) fuel =
      searchLoop (mkEndpoint pages) fuel 1 [] := rfl
  rw [h0, searchLoop_general pages (N - 1) 1 fuel [] (by omega)
    (fun i h1 h2 => hfirst i h1 (by omega))
    (by rw [show 1 + (N - 1) = N from by omega]; exact hempty)]
  rw [show 1 + (N - 1) = N from by omega]
  simp

/-- A mocked endpoint with two non-empty pages of granules and every later
page empty. -/
def pagesEx : Nat → List (List String) := fun p =>
  if p = 1 then [["s3://bucket/a.slc", "https://mirror/a.slc"]]
  else if p = 2 then [["ftp://mirror/c.slc"], ["s3://bucket/d.slc"]]
  else []

/-- Witness for C3 at the mocked two-page endpoint: exactly 3 page requests
and the links of the first two pages, concatenated. -/
theorem C3_pagination_witness :
    (1 : Nat) ≤ 3 ∧
    (∀ p, 1 ≤ p → p < 3 → pagesEx p ≠ []) ∧
    pagesEx 3 = [] ∧ (3 : Nat) ≤ 3 ∧
    searchCmr ⟨200, mkCollectionsBody [Json.str "C2595-ORNL"]⟩
        (fun prm => mkEndpoint pagesEx prm.pageNum) 3 =
      some (Except.ok (segLinks pagesEx 1 2, 3)) ∧
    segLinks pagesEx 1 2 = ["s3://bucket/a.slc", "s3://bucket/d.slc"] :=
  ⟨by omega,
   fun p h1 h2 => by interval_cases p <;> decide,
   by decide, by omega,
   C3_pagination pagesEx (Json.str "C2595-ORNL") 3 3 (by omega)
     (fun p h1 h2 => by interval_cases p <;> decide) (by decide) (by omega),
   by decide⟩

/-- If the loop exits within any amount of fuel, some page at or after the
start page has an empty entry list. -/
lemma searchLoop_some_implies_empty (pages : Nat → List (List String)) :
    ∀ (fuel p : Nat) (acc : List String) (r : Except CmrError (List String × Nat)),
      searchLoop (mkEndpoint pages) fuel p acc = some r →
      ∃ q, p ≤ q ∧ pages q = [] := by
  intro fuel
  induction fuel with
  | zero => intro p acc r h; simp [searchLoop] at h
  | succ f ih =>
      intro p acc r h
      cases hp : pages p with
      | nil => exact ⟨p, le_refl p, hp⟩
      | cons g t =>
          rw [searchLoop_step pages f p acc (by simp [hp])] at h
          obtain ⟨q, hq1, hq2⟩ := ih (p + 1) _ r h
          exact ⟨q, by omega, hq2⟩

/-- If some page at offset `k` from the start page is empty, the loop exits
within `k + 1` iterations. -/
lemma searchLoop_terminates_of_empty (pages : Nat → List (List String)) :
    ∀ (k p : Nat) (acc : List String), pages (p + k) = [] →
      ∃ r, searchLoop (mkEndpoint pages) (k + 1) p acc = some r := by
  intro k
  induction k with
  | zero =>
      intro p acc h
      exact ⟨Except.ok (acc, p), searchLoop_stop pages 0 p acc (by simpa using h)⟩
  | succ k ih =>
      intro p acc h
      cases hp : pages p with
      | nil => exact ⟨Except.ok (acc, p), searchLoop_stop pages (k + 1) p acc hp⟩
      | cons g t =>
          rw [searchLoop_step pages (k + 1) p acc (by simp [hp])]
          exact ih (p + 1) _
            (by rw [show p + 1 + k = p + (k + 1) from by omega]; exact h)

/-- C10: over a well-formed granule-listing endpoint given as a function
from page number to entry list, the search terminates (for some fuel) if and
only if some page number `≥ 1` has an empty entry list; an endpoint
returning non-empty entries on every page makes the loop run forever. -/
theorem C10_termination (pages : Nat → List (List String)) (cid : Json) :
    (∃ fuel r, searchCmr ⟨200, mkCollectionsBody [cid]⟩
        (fun prm => mkEndpoint pages prm.pageNum) fuel = some r) ↔
      ∃ p, 1 ≤ p ∧ pages p = [] := by
  constructor
  · rintro ⟨fuel, r, h⟩
    have h' : searchLoop (mkEndpoint pages) fuel 1 [] = some r := h
    exact searchLoop_some_implies_empty pages fuel 1 [] r h'
  · rintro ⟨p, hp1, hp2⟩
    obtain ⟨r, hr⟩ := searchLoop_terminates_of_empty pages (p - 1) 1 []
      (by rw [show 1 + (p - 1) = p from by omega]; exact hp2)
    exact ⟨p - 1 + 1, r, hr⟩

/-- C7 counterexample: the DOI-to-collection lookup is issued with NO status
check, so an HTTP error status on it does not raise — with a 404 lookup
response whose body is well-formed, the whole search runs to a successful
result. -/
theorem C7_counterexample :
    isErrorStatus 404 = true ∧
    searchCmr ⟨404, mkCollectionsBody [Json.str "C2595-ORNL"]⟩
        (fun prm => mkEndpoint (fun _ => []) prm.pageNum) 1 =
      some (Except.ok ([], 1)) :=
  ⟨rfl, rfl⟩

/-- C7 amended: the granule-page requests and the credential request raise
immediately on an HTTP error status; the DOI lookup performs no status
check, and fails only when its response body lacks the expected
feed/entry/id structure. -/
theorem C7_amended :
    (∀ resp : HttpResponse, isErrorStatus resp.status = true →
      getS3Credentials resp = Except.error resp.status) ∧
    (∀ (req : Nat → HttpResponse) (fuel p : Nat) (acc : List String),
      isErrorStatus (req p).status = true →
      searchLoop req (fuel + 1) p acc =
        some (Except.error (CmrError.httpError (req p).status))) ∧
    (∀ (doiResp : HttpResponse) (granuleReq : CmrParams → HttpResponse)
        (fuel : Nat), conceptIdOf doiResp.body = none →
      searchCmr doiResp granuleReq fuel = some (Except.error CmrError.keyError)) := by
  refine ⟨?_, ?_, ?_⟩
  · intro resp h
    simp [getS3Credentials, h]
  · intro req fuel p acc h
    simp [searchLoop, h]
  · intro doiResp granuleReq fuel h
    simp [searchCmr, h]

/-- C8 counterexample: the raster payload read of the executed code is a
memory-map of a local file named by the URI's last path segment, not an open
through the credential-scoped remote layer. -/
theorem C8_counterexample :
    rasterAccess "s3://uavsar-bucket/slc/seg2_file.slc" =
      Access.localMemmap "seg2_file.slc" ∧
    ∀ q : String, rasterAccess "s3://uavsar-bucket/slc/seg2_file.slc" ≠
      Access.fsS3Open q := by
  constructor
  · decide
  · intro q h
    rw [show rasterAccess "s3://uavsar-bucket/slc/seg2_file.slc" =
        Access.localMemmap "seg2_file.slc" from by decide] at h
    exact Access.noConfusion h

/-- C8 amended: the raster payload is memory-mapped from a local file named
by the granule URI's last path segment (its download through the
credential-scoped layer is present only as commented-out code); the only
read through the credential-scoped layer in the executed flow is the
annotation file's. -/
theorem C8_amended (annFile seg2 : String) :
    rasterAccess seg2 = Access.localMemmap (lastSegment seg2) ∧
    Access.fsS3Open annFile ∈ notebookAccesses annFile seg2 ∧
    ∀ q, Access.fsS3Open q ∈ notebookAccesses annFile seg2 → q = annFile := by
  refine ⟨rfl, ?_, ?_⟩
  · simp [notebookAccesses]
  · intro q hq
    simp [notebookAccesses, rasterAccess] at hq
    exact hq

/-- C9: the DOI is resolved from the single lookup response; an empty entry
list or a body missing the feed/entry/id structure makes the extraction fail
and `search_cmr` propagate an unrecoverable error; on success the first
entry's identifier is the one used for every granule-page request. -/
theorem C9_doi_resolution :
    conceptIdOf (mkCollectionsBody []) = none ∧
    conceptIdOf Json.null = none ∧
    conceptIdOf (Json.obj []) = none ∧
    conceptIdOf (Json.obj [("feed", Json.obj [])]) = none ∧
    conceptIdOf (Json.obj [("feed",
      Json.obj [("entry", Json.arr [Json.obj []])])]) = none ∧
    (∀ (doiResp : HttpResponse) (granuleReq : CmrParams → HttpResponse)
        (fuel : Nat), conceptIdOf doiResp.body = none →
      searchCmr doiResp granuleReq fuel = some (Except.error CmrError.keyError)) ∧
    (∀ (cid : Json) (rest : List Json) (st : Nat)
        (granuleReq : CmrParams → HttpResponse) (fuel : Nat),
      conceptIdOf (mkCollectionsBody (cid :: rest)) = some cid ∧
      searchCmr ⟨st, mkCollectionsBody (cid :: rest)⟩ granuleReq fuel =
        searchLoop (fun p => granuleReq ⟨cid, pageSizeLimit, p⟩) fuel 1 []) := by
  refine ⟨rfl, rfl, rfl, rfl, rfl, ?_, ?_⟩
  · intro doiResp granuleReq fuel h
    simp [searchCmr, h]
  · intro cid rest st granuleReq fuel
    exact ⟨rfl, rfl⟩

end UAVSAR
